import Mathlib

/-!
# `CPP/3_variables.cpp`

A state-passing embedding of the single function `main` of
`CPP/3_variables.cpp`: local variables live in a record, `cout` is a character
buffer with its formatting flags, every statement of `main` is a state
transformer, and `main` runs the statements in source order.

The parts of the C++ language and library that `main` relies on are embedded
with it:

* `int` arithmetic (`+`, `*`) on 32-bit signed integers, where overflow is
  undefined behaviour and is reported as a fault;
* the conversion of the decimal literal `5.99` to a binary64 `double`;
* `operator<<` for `int`, `double`, `char`, `string`, `bool` and string
  literals with the stream's default flags (the `double` inserter is the
  `%g` conversion with the stream precision).

All numbers are exact (`Nat`/`Int`); no machine floating point is used.
-/

namespace Variables

/-! ## Decimal digits -/

/-- The decimal digit character of `d % 10`. -/
def digitChar (d : Nat) : Char :=
  Char.ofNat (48 + d % 10)

/-- Decimal digits of `n`, most significant first, accumulated in front of
`acc`; `fuel` bounds the number of digits produced. -/
def natDigitsAux : Nat → Nat → List Char → List Char
  | 0, _, acc => acc
  | fuel + 1, n, acc =>
    if n < 10 then digitChar n :: acc
    else natDigitsAux fuel (n / 10) (digitChar n :: acc)

/-- Decimal rendering of a natural number (`0` renders as `0`). -/
def natDigits (n : Nat) : List Char :=
  natDigitsAux (n + 1) n []

/-- Decimal rendering of `n` left-padded with `0` to at least `w` digits. -/
def natDigitsPadded (w n : Nat) : List Char :=
  let ds := natDigits n
  List.replicate (w - ds.length) '0' ++ ds

/-- Rendering of an `int` by `operator<<(int)` with the default flags: decimal,
a leading `-` for negative values, no padding. -/
def renderInt (i : Int) : List Char :=
  if i < 0 then '-' :: natDigits i.natAbs else natDigits i.natAbs

/-! ## `int` -/

/-- The ways in which the abstract machine can leave defined behaviour. -/
inductive Fault where
  /-- Signed integer overflow in an `int` operation. -/
  | signedOverflow
  /-- Read of a variable that holds no value yet. -/
  | indeterminateRead
  deriving DecidableEq

deriving instance DecidableEq for Except

/-- Smallest value of a 32-bit `int`. -/
def INT_MIN : Int := -(2 ^ 31)

/-- Largest value of a 32-bit `int`. -/
def INT_MAX : Int := 2 ^ 31 - 1

/-- Whether a mathematical integer is representable as an `int`. -/
def inIntRange (v : Int) : Bool :=
  decide (INT_MIN ≤ v) && decide (v ≤ INT_MAX)

/-- The two arithmetic operators `main` applies to `int` operands. -/
structure IntArith where
  /-- Binary `+`. -/
  add : Int → Int → Except Fault Int
  /-- Binary `*`. -/
  mul : Int → Int → Except Fault Int

/-- The result of an `int` operation whose mathematical result is `v`:
a fault when `v` is not representable. -/
def checkInt (v : Int) : Except Fault Int :=
  if inIntRange v then .ok v else .error .signedOverflow

/-- C++ `int` arithmetic: 32-bit, overflow is undefined behaviour. -/
def int32 : IntArith where
  add a b := checkInt (a + b)
  mul a b := checkInt (a * b)

/-- Arithmetic over the unbounded integers, for comparison with `int32`. -/
def unbounded : IntArith where
  add a b := .ok (a + b)
  mul a b := .ok (a * b)

/-- Reduction of a mathematical integer to 32-bit two's complement. -/
def wrapInt (v : Int) : Int :=
  (v + 2 ^ 31) % 2 ^ 32 - 2 ^ 31

/-- Wrapping 32-bit arithmetic, for comparison with `int32`. -/
def wrapping : IntArith where
  add a b := .ok (wrapInt (a + b))
  mul a b := .ok (wrapInt (a * b))

/-! ## `double` -/

/-- A finite binary64 value `(-1)^neg * mant * 2^exp`. -/
structure Double where
  /-- Sign bit. -/
  neg : Bool
  /-- Integer significand, below `2^53`. -/
  mant : Nat
  /-- Exponent of the unit in the last place. -/
  exp : Int
  deriving DecidableEq

/-- Number of binary digits of `n`; `fuel` bounds the count. -/
def bitLengthAux : Nat → Nat → Nat
  | 0, _ => 0
  | fuel + 1, n => if n = 0 then 0 else bitLengthAux fuel (n / 2) + 1

/-- Number of binary digits of `n` (`0` for `0`). -/
def bitLength (n : Nat) : Nat :=
  bitLengthAux (n + 1) n

/-- Quotient `num / den` rounded to the nearest integer, ties to even. -/
def roundDiv (num den : Nat) : Nat :=
  let q := num / den
  let r := num % den
  if den < 2 * r then q + 1
  else if 2 * r = den ∧ q % 2 = 1 then q + 1
  else q

/-- The fraction `num / den` scaled by `2^(-e)`, as a numerator and a
denominator. -/
def scaleBinary (num den : Nat) (e : Int) : Nat × Nat :=
  if 0 ≤ e then (num, den * 2 ^ e.toNat) else (num * 2 ^ (-e).toNat, den)

/-- The binary64 value nearest to the positive fraction `num / den` (round to
nearest, ties to even), for fractions in the normal range of binary64. -/
def Double.ofRatio (num den : Nat) : Double :=
  if num = 0 then ⟨false, 0, 0⟩
  else
    let e1 : Int := (bitLength num : Int) - (bitLength den : Int) - 52
    let s1 := scaleBinary num den e1
    let e : Int := if 2 ^ 52 ≤ s1.1 / s1.2 then e1 else e1 - 1
    let s := scaleBinary num den e
    let m := roundDiv s.1 s.2
    if m = 2 ^ 53 then ⟨false, 2 ^ 52, e + 1⟩ else ⟨false, m, e⟩

/-- The value of a decimal floating literal with digit string `digits` and
`scale` digits after the decimal point, `digits * 10^(-scale)`. -/
def Double.ofDecimal (digits scale : Nat) : Double :=
  Double.ofRatio digits (10 ^ scale)

/-- The magnitude of a `double` as an exact fraction. -/
def Double.ratio (d : Double) : Nat × Nat :=
  if 0 ≤ d.exp then (d.mant * 2 ^ d.exp.toNat, 1) else (d.mant, 2 ^ (-d.exp).toNat)

/-- Least `k ≥ start` with `den ≤ num * 10^k`, searching at most `fuel`
candidates. -/
def negExponentSearch : Nat → Nat → Nat → Nat → Nat
  | 0, _, _, k => k
  | fuel + 1, num, den, k =>
    if den ≤ num * 10 ^ k then k else negExponentSearch fuel num den (k + 1)

/-- The decimal exponent `⌊log10 (num / den)⌋` of a positive fraction. -/
def decExponent (num den : Nat) : Int :=
  if den ≤ num then ((natDigits (num / den)).length : Int) - 1
  else -(negExponentSearch 400 num den 1 : Int)

/-- The fraction `num / den` scaled by `10^k` and rounded to an integer. -/
def scaleDecimal (num den : Nat) (k : Int) : Nat :=
  if 0 ≤ k then roundDiv (num * 10 ^ k.toNat) den
  else roundDiv num (den * 10 ^ (-k).toNat)

/-- Removal of trailing `0` characters. -/
def stripTrailingZeros (ds : List Char) : List Char :=
  (ds.reverse.dropWhile (· == '0')).reverse

/-- A fractional part for output: its digits without trailing zeros, after a
decimal point, or nothing when no digit remains. -/
def fractionPart (ds : List Char) : List Char :=
  let r := stripTrailingZeros ds
  if r.isEmpty then [] else '.' :: r

/-- The `%g` conversion of a positive fraction with precision `prec`, without
the `#` flag: with `P` the precision (1 when given as 0) and `X` the exponent
of the value rounded to `P` significant digits, fixed form with `P - 1 - X`
fraction digits when `-4 ≤ X < P`, scientific form with `P - 1` fraction
digits otherwise; trailing zeros of the fraction are removed. -/
def renderG (prec : Nat) (num den : Nat) : List Char :=
  let P : Nat := if prec = 0 then 1 else prec
  let X0 := decExponent num den
  let s0 := scaleDecimal num den ((P : Int) - 1 - X0)
  let X : Int := if s0 = 10 ^ P then X0 + 1 else X0
  let s : Nat := if s0 = 10 ^ P then 10 ^ (P - 1) else s0
  if -4 ≤ X ∧ X < (P : Int) then
    let p : Nat := ((P : Int) - 1 - X).toNat
    let n := scaleDecimal num den p
    natDigits (n / 10 ^ p) ++ fractionPart (natDigitsPadded p (n % 10 ^ p))
  else
    natDigits (s / 10 ^ (P - 1))
      ++ fractionPart (natDigitsPadded (P - 1) (s % 10 ^ (P - 1)))
      ++ 'e' :: (if X < 0 then '-' else '+') :: natDigitsPadded 2 X.natAbs

/-- Rendering of a `double` by `operator<<(double)` with `floatfield` unset:
the `%g` conversion with the stream's precision. -/
def renderDouble (prec : Nat) (d : Double) : List Char :=
  if d.mant = 0 then (if d.neg then ['-', '0'] else ['0'])
  else
    let r := d.ratio
    (if d.neg then ['-'] else []) ++ renderG prec r.1 r.2

/-! ## Program state -/

/-- What a process could observe from outside: its arguments, its environment
and its standard input. `main` is declared as `int main()`. -/
structure Process where
  /-- Command-line arguments. -/
  argv : List String
  /-- Environment variables. -/
  environ : List (String × String)
  /-- Contents of standard input. -/
  stdin : List Char
  deriving DecidableEq

/-- The stream `cout`: the characters written so far and the formatting state
consulted by the inserters `main` uses. -/
structure OStream where
  /-- Characters written so far, in order. -/
  buf : List Char
  /-- The `boolalpha` flag. -/
  boolalpha : Bool
  /-- The floating-point precision. -/
  precision : Nat
  deriving DecidableEq

/-- The stream `cout` at program start: nothing written, `boolalpha` unset,
precision 6. -/
def OStream.initial : OStream :=
  { buf := [], boolalpha := false, precision := 6 }

/-- Appends characters to the stream. -/
def OStream.write (o : OStream) (cs : List Char) : OStream :=
  { o with buf := o.buf ++ cs }

/-- The inserter for string literals and `std::string`. -/
def OStream.insertString (o : OStream) (s : List Char) : OStream :=
  o.write s

/-- The inserter for `char`. -/
def OStream.insertChar (o : OStream) (c : Char) : OStream :=
  o.write [c]

/-- The inserter for `int`. -/
def OStream.insertInt (o : OStream) (i : Int) : OStream :=
  o.write (renderInt i)

/-- The inserter for `double`. -/
def OStream.insertDouble (o : OStream) (d : Double) : OStream :=
  o.write (renderDouble o.precision d)

/-- The inserter for `bool`: `1`/`0`, or `true`/`false` under `boolalpha`. -/
def OStream.insertBool (o : OStream) (b : Bool) : OStream :=
  if o.boolalpha then o.write (if b then "true".toList else "false".toList)
  else o.write (if b then ['1'] else ['0'])

/-- The local variables of `main`; `none` is a variable that holds no value
(not yet declared, or declared without an initialiser). -/
structure Locals where
  n : Option Int
  myNum : Option Int
  myFloatNum : Option Double
  myLetter : Option Char
  myText : Option (List Char)
  myBoolean : Option Bool
  x : Option Int
  y : Option Int
  z : Option Int
  minutesPerHour : Option Int
  length : Option Int
  width : Option Int
  area : Option Int
  deriving DecidableEq

/-- No local variable holds a value. -/
def Locals.initial : Locals :=
  { n := none, myNum := none, myFloatNum := none, myLetter := none, myText := none,
    myBoolean := none, x := none, y := none, z := none, minutesPerHour := none,
    length := none, width := none, area := none }

/-- The state of the running program. -/
structure State where
  /-- The process inputs. -/
  proc : Process
  /-- The standard output stream. -/
  cout : OStream
  /-- The local variables of `main`. -/
  vars : Locals
  deriving DecidableEq

/-- The state on entry to `main`. -/
def State.initial (p : Process) : State :=
  { proc := p, cout := OStream.initial, vars := Locals.initial }

/-- Applies an inserter to `cout`. -/
def State.out (s : State) (f : OStream → OStream) : State :=
  { s with cout := f s.cout }

/-- Updates the local variables. -/
def State.set (s : State) (f : Locals → Locals) : State :=
  { s with vars := f s.vars }

/-- Lvalue-to-rvalue conversion: the value of a variable, a fault when it holds
none. -/
def load {α : Type} (v : Option α) : Except Fault α :=
  match v with
  | some a => .ok a
  | none => .error .indeterminateRead

/-- A statement: a state transformer that may fault. -/
abbrev Stmt := State → Except Fault State

/-- Runs statements in order, stopping at the first fault. -/
def exec : List Stmt → State → Except Fault State
  | [], s => .ok s
  | st :: rest, s =>
    match st s with
    | .ok s1 => exec rest s1
    | .error e => .error e

/-! ## The statements of `main`, in source order -/

/-- Statement `int n;` -/
def declN : Stmt := fun s =>
  .ok (s.set fun v => { v with n := none })

/-- Statement `n = 10;` -/
def assignN : Stmt := fun s =>
  .ok (s.set fun v => { v with n := some 10 })

/-- Statement `int myNum = 5;` -/
def declMyNum : Stmt := fun s =>
  .ok (s.set fun v => { v with myNum := some 5 })

/-- Statement `double myFloatNum = 5.99;` -/
def declMyFloatNum : Stmt := fun s =>
  .ok (s.set fun v => { v with myFloatNum := some (Double.ofDecimal 599 2) })

/-- Statement `char myLetter = 'D';` -/
def declMyLetter : Stmt := fun s =>
  .ok (s.set fun v => { v with myLetter := some 'D' })

/-- Statement `string myText = "Hello";` -/
def declMyText : Stmt := fun s =>
  .ok (s.set fun v => { v with myText := some "Hello".toList })

/-- Statement `bool myBoolean = true;` -/
def declMyBoolean : Stmt := fun s =>
  .ok (s.set fun v => { v with myBoolean := some true })

/-- Statement `cout << n << myNum << myFloatNum << myLetter << myText << myBoolean <<"\n";` -/
def printPrimitives : Stmt := fun s => do
  let n ← load s.vars.n
  let s := s.out (·.insertInt n)
  let myNum ← load s.vars.myNum
  let s := s.out (·.insertInt myNum)
  let myFloatNum ← load s.vars.myFloatNum
  let s := s.out (·.insertDouble myFloatNum)
  let myLetter ← load s.vars.myLetter
  let s := s.out (·.insertChar myLetter)
  let myText ← load s.vars.myText
  let s := s.out (·.insertString myText)
  let myBoolean ← load s.vars.myBoolean
  let s := s.out (·.insertBool myBoolean)
  return s.out (·.insertString "\n".toList)

/-- Statement `int x = 4, y = 6, z = 9;` -/
def declXYZ : Stmt := fun s =>
  let s := s.set fun v => { v with x := some 4 }
  let s := s.set fun v => { v with y := some 6 }
  .ok (s.set fun v => { v with z := some 9 })

/-- The expression `x+y+z`, that is `(x + y) + z`. -/
def sumXYZ (A : IntArith) (s : State) : Except Fault Int := do
  let x ← load s.vars.x
  let y ← load s.vars.y
  let xy ← A.add x y
  let z ← load s.vars.z
  A.add xy z

/-- Statement `cout << "\n" << x+y+z;` (both occurrences) -/
def printSum (A : IntArith) : Stmt := fun s => do
  let s := s.out (·.insertString "\n".toList)
  let v ← sumXYZ A s
  return s.out (·.insertInt v)

/-- Statement `x = y = z = 50;`, that is `x = (y = (z = 50))`. -/
def assignChain : Stmt := fun s => do
  let s := s.set fun v => { v with z := some 50 }
  let z ← load s.vars.z
  let s := s.set fun v => { v with y := some z }
  let y ← load s.vars.y
  return s.set fun v => { v with x := some y }

/-- Statement `const int minutesPerHour = 60;`, with the initialiser as a parameter. -/
def declMinutesPerHour (init : Int) : Stmt := fun s =>
  .ok (s.set fun v => { v with minutesPerHour := some init })

/-- Statement `cout << "##################################\n";` -/
def printSeparator : Stmt := fun s =>
  .ok (s.out (·.insertString "##################################\n".toList))

/-- Statement `int length = 4;` -/
def declLength : Stmt := fun s =>
  .ok (s.set fun v => { v with length := some 4 })

/-- Statement `int width = 6;` -/
def declWidth : Stmt := fun s =>
  .ok (s.set fun v => { v with width := some 6 })

/-- Statement `int area = length * width;` -/
def declArea (A : IntArith) : Stmt := fun s => do
  let length ← load s.vars.length
  let width ← load s.vars.width
  let area ← A.mul length width
  return s.set fun v => { v with area := some area }

/-- Statement `cout << "Length is: " << length << "\n";` -/
def printLength : Stmt := fun s => do
  let s := s.out (·.insertString "Length is: ".toList)
  let length ← load s.vars.length
  let s := s.out (·.insertInt length)
  return s.out (·.insertString "\n".toList)

/-- Statement `cout << "Width is: " << width << "\n";` -/
def printWidth : Stmt := fun s => do
  let s := s.out (·.insertString "Width is: ".toList)
  let width ← load s.vars.width
  let s := s.out (·.insertInt width)
  return s.out (·.insertString "\n".toList)

/-- Statement `cout << "Area of the rectangle is: " << area << "\n";` -/
def printArea : Stmt := fun s => do
  let s := s.out (·.insertString "Area of the rectangle is: ".toList)
  let area ← load s.vars.area
  let s := s.out (·.insertInt area)
  return s.out (·.insertString "\n".toList)

/-! ## `main` -/

/-- The statements of `main` up to and including the second
`cout << "\n" << x+y+z;`. -/
def bodyBeforeConst (A : IntArith) : List Stmt :=
  [declN, assignN, declMyNum, declMyFloatNum, declMyLetter, declMyText, declMyBoolean,
   printPrimitives, declXYZ, printSum A, assignChain, printSum A]

/-- The statements of `main` after the declaration of `minutesPerHour`. -/
def bodyAfterConst (A : IntArith) : List Stmt :=
  [printSeparator, declLength, declWidth, declArea A, printLength, printWidth, printArea]

/-- The statements of `main` before `return 0;`, in source order. -/
def body (A : IntArith) (minutesPerHourInit : Int) : List Stmt :=
  bodyBeforeConst A ++ declMinutesPerHour minutesPerHourInit :: bodyAfterConst A

/-- The function `main` over a choice of integer arithmetic and of the initialiser of
`minutesPerHour`: the statements of `body`, then `return 0;`. The result is the
exit status with the state at the `return`. -/
def mainWith (A : IntArith) (minutesPerHourInit : Int) (p : Process) :
    Except Fault (Int × State) :=
  match exec (body A minutesPerHourInit) (State.initial p) with
  | .ok s => .ok (0, s)
  | .error e => .error e

/-- The function `main` of `CPP/3_variables.cpp`: `int` is 32-bit and the constant is
initialised with 60. -/
def main (p : Process) : Except Fault (Int × State) :=
  mainWith int32 60 p

/-! ## Observations -/

/-- The text on standard output and the exit status of a finished run. -/
def observe (r : Except Fault (Int × State)) : Except Fault (List Char × Int) :=
  r.map fun q => (q.2.cout.buf, q.1)

/-- The text on standard output of a finished run. -/
def outputText (r : Except Fault (Int × State)) : Except Fault (List Char) :=
  r.map fun q => q.2.cout.buf

/-- The lines of a text: the runs of characters ended by a newline, and a last
run that no newline ends when it is not empty. `cur` is the current run,
reversed. -/
def linesAux : List Char → List Char → List (List Char)
  | [], cur => if cur.isEmpty then [] else [cur.reverse]
  | c :: cs, cur =>
    if c = '\n' then cur.reverse :: linesAux cs [] else linesAux cs (c :: cur)

/-- The lines of a text, without their newlines. -/
def lines (text : List Char) : List (List Char) :=
  linesAux text []

/-- A line of hash characters: not empty and made up only of `#`. -/
def isHashLine (l : List Char) : Bool :=
  !l.isEmpty && l.all (· == '#')

/-- The text `main` leaves on standard output. -/
def expectedOutput : List Char :=
  "1055.99DHello1\n\n19\n150".toList ++ List.replicate 34 '#'
    ++ "\nLength is: 4\nWidth is: 6\nArea of the rectangle is: 24\n".toList

/-- The local variables after the seven declarations of primitive values. -/
def primitiveLocals : Locals :=
  { Locals.initial with
    n := some 10, myNum := some 5, myFloatNum := some ⟨false, 6744140441987318, -50⟩,
    myLetter := some 'D', myText := some "Hello".toList, myBoolean := some true }

/-- The local variables when `main` returns. -/
def finalLocals : Locals :=
  { primitiveLocals with
    x := some 50, y := some 50, z := some 50, minutesPerHour := some 60,
    length := some 4, width := some 6, area := some 24 }

/-- The stream `cout` with the default flags after `text` has been written. -/
def coutWith (text : List Char) : OStream :=
  { OStream.initial with buf := text }

/-- A process without arguments, environment or input. -/
def Process.empty : Process :=
  { argv := [], environ := [], stdin := [] }

/-- The state with the process inputs replaced. -/
def State.withProc (s : State) (p : Process) : State :=
  { s with proc := p }

/-- The state with the value of `minutesPerHour` replaced. -/
def State.withMinutesPerHour (s : State) (w : Option Int) : State :=
  s.set fun v => { v with minutesPerHour := w }

/-- A statement commutes with a change `u` of the state: run after the change,
it does what it does without it, followed by the change. The statement then
neither depends on nor alters what `u` sets. -/
def Commutes (u : State → State) (st : Stmt) : Prop :=
  ∀ s, st (u s) = (st s).map u

/-- The state expected after `int x = 4, y = 6, z = 9;`. -/
def stateAfterDeclXYZ (p : Process) : State :=
  { proc := p, cout := coutWith "1055.99DHello1\n".toList,
    vars := { primitiveLocals with x := some 4, y := some 6, z := some 9 } }

/-- The state expected after `x = y = z = 50;`. -/
def stateAfterAssignChain (p : Process) : State :=
  { proc := p, cout := coutWith "1055.99DHello1\n\n19".toList,
    vars := { primitiveLocals with x := some 50, y := some 50, z := some 50 } }


/-! ## Running statement lists -/

/-- A list of statements that each commute with `u` commutes with `u` as a whole. -/
theorem exec_commutes (u : State → State) (l : List Stmt) (h : ∀ st ∈ l, Commutes u st)
    (s : State) : exec l (u s) = (exec l s).map u := by
  induction l generalizing s with
  | nil => rfl
  | cons st rest ih =>
    have hst : st (u s) = (st s).map u := (h st (List.mem_cons_self st rest)) s
    have hrest : ∀ t ∈ rest, Commutes u t := fun t ht => h t (List.mem_cons_of_mem st ht)
    simp only [exec, hst]
    cases hs : st s with
    | error e => rfl
    | ok s1 => exact ih hrest s1

/-- Running `l1 ++ l2` is running `l1`, then `l2` from the state reached. -/
theorem exec_append (l1 l2 : List Stmt) (s : State) :
    exec (l1 ++ l2) s = (exec l1 s).bind (exec l2) := by
  induction l1 generalizing s with
  | nil => rfl
  | cons st rest ih =>
    simp only [List.cons_append, exec]
    cases hs : st s with
    | error e => rfl
    | ok s1 => exact ih s1

/-! ## No statement looks at the process inputs -/

/-- Every statement of `main` commutes with a replacement of the process inputs. -/
theorem body_withProc (A : IntArith) (v : Int) (p : Process) :
    ∀ st ∈ body A v, Commutes (State.withProc · p) st := by
  simp only [body, bodyBeforeConst, bodyAfterConst, List.cons_append, List.nil_append,
    List.forall_mem_cons]
  refine ⟨?_, ?_, ?_, ?_, ?_, ?_, ?_, ?_, ?_, ?_, ?_, ?_, ?_, ?_, ?_, ?_, ?_, ?_, ?_, ?_,
    fun _ h => absurd h (List.not_mem_nil _)⟩
  all_goals
    intro s
    rcases s with ⟨pr, o, ⟨n, myNum, myFloatNum, myLetter, myText, myBoolean, x, y, z, m, l, w, a⟩⟩
    simp only [declN, assignN, declMyNum, declMyFloatNum, declMyLetter, declMyText,
      declMyBoolean, printPrimitives, declXYZ, printSum, sumXYZ, assignChain,
      declMinutesPerHour, printSeparator, declLength, declWidth, declArea, printLength,
      printWidth, printArea, State.withProc, State.out, State.set, load, bind, Except.bind,
      pure, Except.pure, Except.map]
    repeat' split
    all_goals simp_all

/-- The statements after the declaration of `minutesPerHour` commute with a
replacement of its value. -/
theorem bodyAfterConst_withMinutesPerHour (A : IntArith) (w : Option Int) :
    ∀ st ∈ bodyAfterConst A, Commutes (State.withMinutesPerHour · w) st := by
  simp only [bodyAfterConst, List.forall_mem_cons]
  refine ⟨?_, ?_, ?_, ?_, ?_, ?_, ?_, fun _ h => absurd h (List.not_mem_nil _)⟩
  all_goals
    intro s
    rcases s with ⟨pr, o, ⟨n, myNum, myFloatNum, myLetter, myText, myBoolean, x, y, z, m, l, wd, a⟩⟩
    simp only [printSeparator, declLength, declWidth, declArea, printLength,
      printWidth, printArea, State.withMinutesPerHour, State.out, State.set, load, bind,
      Except.bind, pure, Except.pure, Except.map]
    repeat' split
    all_goals simp_all


/-! ## Evaluation of `main` -/

/-- A run from the entry state is the run without process inputs, with the
process inputs put back. -/
theorem exec_initial (A : IntArith) (v : Int) (l : List Stmt) (h : ∀ st ∈ l, st ∈ body A v)
    (p : Process) :
    exec l (State.initial p) = (exec l (State.initial Process.empty)).map (State.withProc · p) :=
  exec_commutes (State.withProc · p) l (fun st hst => body_withProc A v p st (h st hst))
    (State.initial Process.empty)

/-- The run of `main` on any process inputs, from the run without inputs. -/
theorem mainWith_withProc (A : IntArith) (v : Int) (p : Process) :
    mainWith A v p = (mainWith A v Process.empty).map fun q => (q.1, q.2.withProc p) := by
  unfold mainWith
  rw [exec_initial A v (body A v) (fun _ h => h) p]
  cases exec (body A v) (State.initial Process.empty) <;> rfl

/-- The binary64 value of the literal `5.99`. -/
theorem myFloatNum_value :
    Double.ofDecimal 599 2 = ⟨false, 6744140441987318, -50⟩ := by
  decide

/-- The value of the literal `5.99` is a normal binary64 number within half a
unit in the last place of `599/100`. -/
theorem myFloatNum_nearest :
    2 ^ 52 ≤ (Double.ofDecimal 599 2).mant ∧ (Double.ofDecimal 599 2).mant < 2 ^ 53 ∧
    (Double.ofDecimal 599 2).exp = -50 ∧
    599 * 2 ^ 50 ≤ 100 * (Double.ofDecimal 599 2).mant + 50 ∧
    100 * (Double.ofDecimal 599 2).mant ≤ 599 * 2 ^ 50 + 50 := by
  decide

set_option maxRecDepth 100000 in
/-- The run of `main` without process inputs, with any of the three integer
arithmetics. -/
theorem mainWith_empty :
    mainWith int32 60 Process.empty
        = .ok (0, ⟨Process.empty, coutWith expectedOutput, finalLocals⟩) ∧
    mainWith unbounded 60 Process.empty = mainWith int32 60 Process.empty ∧
    mainWith wrapping 60 Process.empty = mainWith int32 60 Process.empty := by
  decide

/-- The run of `main`: exit status 0, the expected text on `cout`, and the
local variables at the `return`. -/
theorem main_eq (p : Process) :
    main p = .ok (0, ⟨p, coutWith expectedOutput, finalLocals⟩) := by
  unfold main
  rw [mainWith_withProc, mainWith_empty.1]
  rfl

set_option maxRecDepth 100000 in
/-- The lines of the expected text. -/
theorem lines_expectedOutput :
    lines expectedOutput =
      ["1055.99DHello1".toList, [], "19".toList, "150".toList ++ List.replicate 34 '#',
        "Length is: 4".toList, "Width is: 6".toList, "Area of the rectangle is: 24".toList] := by
  decide

/-- Changing the initialiser of `minutesPerHour` changes the run of `main` in
the final value of that variable only. -/
theorem mainWith_minutesPerHour (A : IntArith) (v : Int) (p : Process) :
    mainWith A v p
      = (mainWith A 60 p).map fun q => (q.1, q.2.withMinutesPerHour (some v)) := by
  have key : ∀ s : State, exec (declMinutesPerHour v :: bodyAfterConst A) s
      = (exec (declMinutesPerHour 60 :: bodyAfterConst A) s).map
          (State.withMinutesPerHour · (some v)) := by
    intro s
    have h := exec_commutes (State.withMinutesPerHour · (some v)) (bodyAfterConst A)
      (bodyAfterConst_withMinutesPerHour A (some v)) (s.withMinutesPerHour (some 60))
    exact h
  unfold mainWith body
  rw [exec_append, exec_append]
  cases exec (bodyBeforeConst A) (State.initial p) with
  | error e => rfl
  | ok s =>
    simp only [Except.bind, key s]
    cases exec (declMinutesPerHour 60 :: bodyAfterConst A) s <;> rfl


/-! ## The claims -/

/-- C1: `main` computes `area = length * width` with `length = 4` and
`width = 6`, so `area = 24`, and its standard output contains, as three
complete consecutive lines in this order, `Length is: 4`, `Width is: 6` and
`Area of the rectangle is: 24`. -/
theorem C1_rectangle_area (p : Process) :
    (main p).map (fun q => (q.2.vars.length, q.2.vars.width, q.2.vars.area))
      = .ok (some 4, some 6, some (4 * 6)) ∧
    int32.mul 4 6 = .ok 24 ∧
    (∃ pre post, (outputText (main p)).map lines
      = .ok (pre ++ ["Length is: 4".toList, "Width is: 6".toList,
          "Area of the rectangle is: 24".toList] ++ post)) ∧
    (∃ pre post, outputText (main p)
      = .ok (pre ++ "\nLength is: 4\nWidth is: 6\nArea of the rectangle is: 24\n".toList
          ++ post)) := by
  refine ⟨?_, by decide, ?_, ?_⟩
  · rw [main_eq]; rfl
  · refine ⟨["1055.99DHello1".toList, [], "19".toList,
      "150".toList ++ List.replicate 34 '#'], [], ?_⟩
    rw [main_eq]
    show Except.ok (lines expectedOutput) = _
    rw [lines_expectedOutput]
    rfl
  · refine ⟨"1055.99DHello1\n\n19\n150".toList ++ List.replicate 34 '#', [], ?_⟩
    rw [main_eq]
    show Except.ok expectedOutput = _
    rw [List.append_nil]
    rfl

set_option maxRecDepth 100000 in
/-- C2: the first line of `main`'s standard output is the concatenation,
without separators, of the default renderings of `n = 10`, `myNum = 5`,
`myFloatNum = 5.99`, `myLetter = 'D'`, `myText = "Hello"` and
`myBoolean = true`; with the default stream flags (no `boolalpha`, precision
6) the line is `1055.99DHello1`. -/
theorem C2_first_line (p : Process) :
    (outputText (main p)).map (fun t => (lines t).head?)
      = .ok (some (renderInt 10 ++ renderInt 5
          ++ renderDouble OStream.initial.precision (Double.ofDecimal 599 2)
          ++ ['D'] ++ "Hello".toList
          ++ (OStream.initial.insertBool true).buf)) ∧
    OStream.initial.boolalpha = false ∧ OStream.initial.precision = 6 ∧
    renderInt 10 = "10".toList ∧ renderInt 5 = "5".toList ∧
    renderDouble 6 (Double.ofDecimal 599 2) = "5.99".toList ∧
    (OStream.initial.insertBool true).buf = "1".toList ∧
    (outputText (main p)).map (fun t => (lines t).head?) = .ok (some "1055.99DHello1".toList) := by
  have h : (outputText (main p)).map (fun t => (lines t).head?)
      = .ok (some "1055.99DHello1".toList) := by
    rw [main_eq]
    show Except.ok (lines expectedOutput).head? = _
    rw [lines_expectedOutput]
    rfl
  refine ⟨?_, rfl, rfl, by decide, by decide, by decide, by decide, h⟩
  rw [h]
  decide


set_option maxRecDepth 100000 in
/-- The statements of `main` through `int x = 4, y = 6, z = 9;`, and through
`x = y = z = 50;`, run without process inputs. -/
theorem exec_upto_empty :
    exec ((body int32 60).take 9) (State.initial Process.empty)
      = .ok (stateAfterDeclXYZ Process.empty) ∧
    exec ((body int32 60).take 11) (State.initial Process.empty)
      = .ok (stateAfterAssignChain Process.empty) := by
  decide

/-- The statements of `main` through `int x = 4, y = 6, z = 9;`. -/
theorem exec_take_9 (p : Process) :
    exec ((body int32 60).take 9) (State.initial p) = .ok (stateAfterDeclXYZ p) := by
  rw [exec_initial int32 60 _ (fun _ h => List.mem_of_mem_take h) p, exec_upto_empty.1]
  rfl

/-- The statements of `main` through `x = y = z = 50;`. -/
theorem exec_take_11 (p : Process) :
    exec ((body int32 60).take 11) (State.initial p) = .ok (stateAfterAssignChain p) := by
  rw [exec_initial int32 60 _ (fun _ h => List.mem_of_mem_take h) p, exec_upto_empty.2]
  rfl

/-- C3: after `int x = 4, y = 6, z = 9;` the variables hold 4, 6 and 9, the sum
`x + y + z` is 19, and the next statement writes a newline followed by the
decimal text `19`, leaving `x`, `y` and `z` as they are. -/
theorem C3_first_sum (p : Process) :
    exec ((body int32 60).take 9) (State.initial p) = .ok (stateAfterDeclXYZ p) ∧
    ((stateAfterDeclXYZ p).vars.x, (stateAfterDeclXYZ p).vars.y, (stateAfterDeclXYZ p).vars.z)
      = (some 4, some 6, some 9) ∧
    sumXYZ int32 (stateAfterDeclXYZ p) = .ok 19 ∧
    (4 : Int) + 6 + 9 = 19 ∧
    (body int32 60)[9]? = some (printSum int32) ∧
    printSum int32 (stateAfterDeclXYZ p)
      = .ok ((stateAfterDeclXYZ p).out (·.write "\n19".toList)) := by
  refine ⟨exec_take_9 p, rfl, ?_, by decide, rfl, ?_⟩
  · exact (by decide : sumXYZ int32 (stateAfterDeclXYZ Process.empty) = .ok 19)
  · have h := body_withProc int32 60 p (printSum int32) (by simp [body, bodyBeforeConst])
      (stateAfterDeclXYZ Process.empty)
    have e : printSum int32 (stateAfterDeclXYZ Process.empty)
        = .ok ((stateAfterDeclXYZ Process.empty).out (·.write "\n19".toList)) := by decide
    rw [e] at h
    exact h

/-- C4: after `x = y = z = 50;` each of `x`, `y` and `z` holds 50, the sum
`x + y + z` is 150, and the next statement writes a newline followed by the
decimal text `150`, after the `19` written before. -/
theorem C4_chained_assignment (p : Process) :
    exec ((body int32 60).take 11) (State.initial p) = .ok (stateAfterAssignChain p) ∧
    ((stateAfterAssignChain p).vars.x, (stateAfterAssignChain p).vars.y,
      (stateAfterAssignChain p).vars.z) = (some 50, some 50, some 50) ∧
    (body int32 60)[10]? = some assignChain ∧
    assignChain ((stateAfterDeclXYZ p).out (·.write "\n19".toList))
      = .ok (stateAfterAssignChain p) ∧
    sumXYZ int32 (stateAfterAssignChain p) = .ok 150 ∧
    (50 : Int) + 50 + 50 = 150 ∧
    (body int32 60)[11]? = some (printSum int32) ∧
    (stateAfterAssignChain p).cout.buf = "1055.99DHello1\n\n19".toList ∧
    printSum int32 (stateAfterAssignChain p)
      = .ok ((stateAfterAssignChain p).out (·.write "\n150".toList)) := by
  refine ⟨exec_take_11 p, rfl, rfl, ?_, ?_, by decide, rfl, rfl, ?_⟩
  · have h := body_withProc int32 60 p assignChain (by simp [body, bodyBeforeConst])
      ((stateAfterDeclXYZ Process.empty).out (·.write "\n19".toList))
    have e : assignChain ((stateAfterDeclXYZ Process.empty).out (·.write "\n19".toList))
        = .ok (stateAfterAssignChain Process.empty) := by decide
    rw [e] at h
    exact h
  · exact (by decide : sumXYZ int32 (stateAfterAssignChain Process.empty) = .ok 150)
  · have h := body_withProc int32 60 p (printSum int32) (by simp [body, bodyBeforeConst])
      (stateAfterAssignChain Process.empty)
    have e : printSum int32 (stateAfterAssignChain Process.empty)
        = .ok ((stateAfterAssignChain Process.empty).out (·.write "\n150".toList)) := by decide
    rw [e] at h
    exact h


set_option maxRecDepth 100000 in
/-- C5, as stated, fails: the text `main` writes has no line made up only of
`#` characters; the run of `#` shares its line with the second sum. -/
theorem C5_no_hash_line :
    (outputText (main Process.empty)).map (fun t => (lines t).any isHashLine) = .ok false ∧
    (outputText (main Process.empty)).map (fun t => (lines t)[3]?)
      = .ok (some ("150".toList ++ List.replicate 34 '#')) := by
  decide

/-- C5, amended: the standard output of `main` consists of, in this order, the
line of concatenated primitive values, an empty line, a line with the first
sum, a line with the second sum directly followed by 34 `#` characters, and
the three labelled lines for length, width and area. -/
theorem C5_output_layout (p : Process) :
    (outputText (main p)).map lines
      = .ok ["1055.99DHello1".toList, [], renderInt 19,
          renderInt 150 ++ List.replicate 34 '#',
          "Length is: ".toList ++ renderInt 4, "Width is: ".toList ++ renderInt 6,
          "Area of the rectangle is: ".toList ++ renderInt 24] := by
  rw [main_eq]
  show Except.ok (lines expectedOutput) = _
  rw [lines_expectedOutput]
  decide

/-- C6: `main` terminates with exit status 0 on all process inputs, and any two
runs produce the same text on standard output and the same exit status. -/
theorem C6_terminates_deterministic (p q : Process) :
    (main p).map (·.1) = .ok 0 ∧
    (∃ text, observe (main p) = .ok (text, 0)) ∧
    observe (main p) = observe (main q) := by
  refine ⟨?_, ⟨expectedOutput, ?_⟩, ?_⟩
  · rw [main_eq]; rfl
  · rw [main_eq]; rfl
  · rw [main_eq, main_eq]; rfl

/-- C7: the integer operations of `main`, `4 + 6 + 9`, `50 + 50 + 50` and
`4 * 6`, stay within the range of a 32-bit `int`: no operation faults, and the
run of `main` with 32-bit arithmetic equals the run with arithmetic over the
unbounded integers and the run with wrapping arithmetic. -/
theorem C7_int_operations_in_range (p : Process) :
    (int32.add 4 6 = .ok (4 + 6) ∧ int32.add (4 + 6) 9 = .ok (4 + 6 + 9) ∧
      (4 : Int) + 6 + 9 = 19) ∧
    (int32.add 50 50 = .ok (50 + 50) ∧ int32.add (50 + 50) 50 = .ok (50 + 50 + 50) ∧
      (50 : Int) + 50 + 50 = 150) ∧
    (int32.mul 4 6 = .ok (4 * 6) ∧ (4 : Int) * 6 = 24) ∧
    (inIntRange 19 = true ∧ inIntRange 150 = true ∧ inIntRange 24 = true) ∧
    (wrapInt (4 + 6 + 9) = 19 ∧ wrapInt (50 + 50 + 50) = 150 ∧ wrapInt (4 * 6) = 24) ∧
    (∀ e, main p ≠ .error e) ∧
    mainWith int32 60 p = mainWith unbounded 60 p ∧
    mainWith int32 60 p = mainWith wrapping 60 p := by
  refine ⟨by decide, by decide, by decide, by decide, by decide, ?_, ?_, ?_⟩
  · intro e h
    rw [main_eq] at h
    exact Except.noConfusion h
  · rw [mainWith_withProc int32, mainWith_withProc unbounded, mainWith_empty.2.1]
  · rw [mainWith_withProc int32, mainWith_withProc wrapping, mainWith_empty.2.2]

/-- C8: the complete standard output of `main` is `1055.99DHello1\n\n19\n150`,
then 34 `#` characters, then
`\nLength is: 4\nWidth is: 6\nArea of the rectangle is: 24\n`. -/
theorem C8_complete_output (p : Process) :
    outputText (main p)
      = .ok ("1055.99DHello1\n\n19\n150".toList ++ List.replicate 34 '#'
          ++ "\nLength is: 4\nWidth is: 6\nArea of the rectangle is: 24\n".toList) := by
  rw [main_eq]
  rfl

/-- C9: `minutesPerHour` holds 60 when `main` returns; every statement after
its declaration commutes with a change of its value, so none assigns to it or
reads it; and the standard output and exit status of `main` are the same for
every initialiser of the constant. -/
theorem C9_minutesPerHour_frame (p : Process) :
    (main p).map (·.2.vars.minutesPerHour) = .ok (some 60) ∧
    body int32 60
      = bodyBeforeConst int32 ++ declMinutesPerHour 60 :: bodyAfterConst int32 ∧
    (∀ (i : Fin (bodyAfterConst int32).length) (w : Option Int),
      Commutes (State.withMinutesPerHour · w) ((bodyAfterConst int32).get i)) ∧
    (∀ v : Int, observe (mainWith int32 v p) = observe (main p)) ∧
    (∀ v : Int, (mainWith int32 v p).map (·.2.vars.minutesPerHour) = .ok (some v)) := by
  refine ⟨?_, rfl, ?_, ?_, ?_⟩
  · rw [main_eq]; rfl
  · intro i w
    exact bodyAfterConst_withMinutesPerHour int32 w _ (List.get_mem _ _ _)
  · intro v
    rw [mainWith_minutesPerHour, ← main, main_eq]
    rfl
  · intro v
    rw [mainWith_minutesPerHour, ← main, main_eq]
    rfl

end Variables
